import Mathlib

/-!
Shallow embedding of `gpustack/utils/process.py` (process lifecycle supervisor).

Python exceptions are modelled by `PyExc`; a call into psutil is modelled by an
environment record that says, for each process involved, how each psutil call
on it behaves (returns normally, raises `NoSuchProcess`, raises `AccessDenied`,
raises some other exception).  Each translated function returns the list of
observable events it performed (terminate/kill signals sent, waits, log calls)
together with the exception it propagates to its caller, if any
(`none` = the function returns normally).
-/

namespace GpuProc

/-- Python exception classes relevant to the module (all subclasses of
`Exception`, so all are caught by a bare `except Exception`). -/
inductive PyExc
  | noSuchProcess
  | accessDenied
  | timeoutExpired
  | zombieProcess
  | valueError
  | otherError
deriving DecidableEq, Repr

/-- Behaviour of a single psutil signalling call (`proc.terminate()` /
`proc.kill()`): it either returns normally or raises one of the exceptions. -/
inductive SigOutcome
  | ok
  | noSuchProcess
  | accessDenied
  | otherError
deriving DecidableEq, Repr

/-- Behaviour of `process.wait(timeout=3)` on the root process. -/
inductive WaitOutcome
  | exited
  | timeout
  | noSuchProcess
  | otherError
deriving DecidableEq, Repr

/-- Outcome of an `asyncio` task awaited by `asyncio.gather`. -/
inductive TaskOutcome
  | completed
  | cancelled
  | errored
deriving DecidableEq, Repr

/-- Observable events of the module, in the order they are performed. -/
inductive Event
  | termAttempt (pid : Nat)                       -- `proc.terminate()` called
  | waitProcs (timeout : Nat)                     -- `psutil.wait_procs(..., timeout)`
  | killAttempt (pid : Nat)                       -- `proc.kill()` called
  | waitSingle (pid : Nat) (timeout : Nat)        -- `process.wait(timeout=...)`
  | logTreeError                                  -- `logger.error` in terminate_process_tree
  | handleInvoked (sig : Option Nat)              -- entry into handle_termination_signal
  | setStopEvent                                  -- `threading_stop_event.set()`
  | treeCall (pid : Nat)                          -- call of terminate_process_tree(pid)
  | cancelTask (tid : Nat)                        -- `task.cancel()`
  | gatherDone (outcomes : List TaskOutcome)      -- `await asyncio.gather(*tasks, return_exceptions=True)`
deriving DecidableEq, Repr

/-- One child process as seen by the terminator: its pid, how `terminate()`
behaves on it, whether `psutil.wait_procs` still reports it alive after the
3-second grace period, and how `kill()` behaves on it. -/
structure ChildProc where
  pid : Nat
  termOutcome : SigOutcome
  aliveAfterGrace : Bool
  killOutcome : SigOutcome
deriving DecidableEq, Repr

/-- The root process as seen by `terminate_process`. -/
structure RootProc where
  pid : Nat
  isRunning : Bool
  termOutcome : SigOutcome
  waitOutcome : WaitOutcome
  killOutcome : SigOutcome
deriving DecidableEq, Repr

/-- The first loop of `terminate_processes`:
```
for proc in processes:
    try:
        proc.terminate()
    except psutil.NoSuchProcess:
        continue
```
`NoSuchProcess` is caught (the member is skipped); any other exception
propagates and aborts the loop. -/
def terminateLoop : List ChildProc → List Event × Option PyExc
  | [] => ([], none)
  | p :: rest =>
    match p.termOutcome with
    | .ok =>
      let r := terminateLoop rest
      (Event.termAttempt p.pid :: r.1, r.2)
    | .noSuchProcess =>
      let r := terminateLoop rest
      (Event.termAttempt p.pid :: r.1, r.2)
    | .accessDenied => ([Event.termAttempt p.pid], some .accessDenied)
    | .otherError => ([Event.termAttempt p.pid], some .otherError)

/-- The second loop of `terminate_processes` (over the `alive` list returned by
`psutil.wait_procs`):
```
for proc in alive:
    try:
        proc.kill()
    except psutil.NoSuchProcess:
        continue
``` -/
def killLoop : List ChildProc → List Event × Option PyExc
  | [] => ([], none)
  | p :: rest =>
    match p.killOutcome with
    | .ok =>
      let r := killLoop rest
      (Event.killAttempt p.pid :: r.1, r.2)
    | .noSuchProcess =>
      let r := killLoop rest
      (Event.killAttempt p.pid :: r.1, r.2)
    | .accessDenied => ([Event.killAttempt p.pid], some .accessDenied)
    | .otherError => ([Event.killAttempt p.pid], some .otherError)

/-- `psutil.wait_procs(processes, timeout=3)` returns `(gone, alive)`; `alive`
is the sublist of processes still running after the timeout. -/
def aliveAfterWait (procs : List ChildProc) : List ChildProc :=
  procs.filter (fun p => p.aliveAfterGrace)

/-- `terminate_processes(processes)`: graceful terminate to every member, then
`wait_procs(processes, timeout=3)`, then kill to each member still alive. -/
def terminate_processes (procs : List ChildProc) : List Event × Option PyExc :=
  let r1 := terminateLoop procs
  match r1.2 with
  | some e => (r1.1, some e)
  | none =>
    let r2 := killLoop (aliveAfterWait procs)
    (r1.1 ++ Event.waitProcs 3 :: r2.1, r2.2)

/-- `terminate_process(process)`:
```
if process.is_running():
    try:
        process.terminate()
        process.wait(timeout=3)
    except psutil.NoSuchProcess:
        pass
    except psutil.TimeoutExpired:
        try:
            process.kill()
        except psutil.NoSuchProcess:
            pass
``` -/
def terminate_process (p : RootProc) : List Event × Option PyExc :=
  if p.isRunning then
    match p.termOutcome with
    | .noSuchProcess => ([Event.termAttempt p.pid], none)
    | .accessDenied => ([Event.termAttempt p.pid], some .accessDenied)
    | .otherError => ([Event.termAttempt p.pid], some .otherError)
    | .ok =>
      match p.waitOutcome with
      | .exited => ([Event.termAttempt p.pid, Event.waitSingle p.pid 3], none)
      | .noSuchProcess => ([Event.termAttempt p.pid, Event.waitSingle p.pid 3], none)
      | .otherError => ([Event.termAttempt p.pid, Event.waitSingle p.pid 3], some .otherError)
      | .timeout =>
        match p.killOutcome with
        | .ok => ([Event.termAttempt p.pid, Event.waitSingle p.pid 3, Event.killAttempt p.pid], none)
        | .noSuchProcess =>
          ([Event.termAttempt p.pid, Event.waitSingle p.pid 3, Event.killAttempt p.pid], none)
        | .accessDenied =>
          ([Event.termAttempt p.pid, Event.waitSingle p.pid 3, Event.killAttempt p.pid],
           some .accessDenied)
        | .otherError =>
          ([Event.termAttempt p.pid, Event.waitSingle p.pid 3, Event.killAttempt p.pid],
           some .otherError)
  else ([], none)

/-- Environment for one call of `terminate_process_tree(pid)`: how
`psutil.Process(pid)` behaves, how `process.children(recursive=True)` behaves,
the root process view, and the enumerated children. -/
structure TreeEnv where
  lookupExc : Option PyExc
  childrenExc : Option PyExc
  root : RootProc
  children : List ChildProc
deriving DecidableEq, Repr

/-- The `try` block of `terminate_process_tree`: look the process up, enumerate
children recursively, terminate the children as a batch, then terminate the
root process. -/
def terminateTreeBody (env : TreeEnv) : List Event × Option PyExc :=
  match env.lookupExc with
  | some e => ([], some e)
  | none =>
    match env.childrenExc with
    | some e => ([], some e)
    | none =>
      let r1 := terminate_processes env.children
      match r1.2 with
      | some e => (r1.1, some e)
      | none =>
        let r2 := terminate_process env.root
        (r1.1 ++ r2.1, r2.2)

/-- `terminate_process_tree(pid)` with its two handlers:
`except psutil.NoSuchProcess: pass` and
`except Exception as e: logger.error(...)`.  It always returns normally. -/
def terminate_process_tree (env : TreeEnv) : List Event × Option PyExc :=
  let r := terminateTreeBody env
  match r.2 with
  | none => (r.1, none)
  | some PyExc.noSuchProcess => (r.1, none)
  | some _ => (r.1 ++ [Event.logTreeError], none)

/-- The two module-level shared flags:
`termination_signal_handled` (the termination gate, a plain bool) and
`threading_stop_event` (the cooperative shutdown signal). -/
structure ModState where
  terminationSignalHandled : Bool
  threadingStopEvent : Bool
deriving DecidableEq, Repr

/-- `handle_termination_signal(signal, frame)`:
```
global termination_signal_handled
if termination_signal_handled:
    return
termination_signal_handled = True
threading_stop_event.set()
pid = os.getpid()
terminate_process_tree(pid)
```
The state threading is sequential (one invocation at a time); the
non-atomicity of the read-then-write is modelled separately by `gateStep`. -/
def handle_termination_signal (sig : Option Nat) (env : TreeEnv) (s : ModState) :
    ModState × List Event :=
  if s.terminationSignalHandled then (s, [Event.handleInvoked sig])
  else
    ({ terminationSignalHandled := true, threadingStopEvent := true },
     Event.handleInvoked sig :: Event.setStopEvent :: Event.treeCall env.root.pid ::
       (terminate_process_tree env).1)

/-- An asyncio task: its identity and the outcome `asyncio.gather` collects
for it after cancellation. -/
structure ATask where
  tid : Nat
  outcome : TaskOutcome
deriving DecidableEq, Repr

/-- `shutdown_event_loop(signal, loop)`:
```
threading_stop_event.set()
try:
    tasks = [t for t in asyncio.all_tasks(loop) if t is not asyncio.current_task()]
    for task in tasks:
        task.cancel()
    await asyncio.gather(*tasks, return_exceptions=True)
except asyncio.CancelledError:
    pass
handle_termination_signal(signal=signal)
```
`current` is the task running the sequencer itself; `return_exceptions=True`
makes `gather` collect the tasks' outcomes instead of propagating them. -/
def shutdown_event_loop (sig : Option Nat) (tasks : List ATask) (current : Nat)
    (env : TreeEnv) (s : ModState) : ModState × List Event :=
  let s1 : ModState := { s with threadingStopEvent := true }
  let others := tasks.filter (fun t => t.tid ≠ current)
  let r := handle_termination_signal sig env s1
  (r.1,
   Event.setStopEvent :: others.map (fun t => Event.cancelTask t.tid)
     ++ Event.gatherDone (others.map (fun t => t.outcome)) :: r.2)

/-- Behaviour of one `psutil.pid_exists(parent_pid)` call in the monitor loop:
it either returns a boolean or raises. -/
inductive PidCheck
  | returns (alive : Bool)
  | raises (e : PyExc)
deriving DecidableEq, Repr

/-- Result of one iteration body of `monitor_loop`: either `os._exit(code)` or
fall through to the bounded wait and the next iteration. -/
inductive IterResult
  | exitWith (code : Nat)
  | continueLoop
deriving DecidableEq, Repr

/-- The `try`/`except` body of one `monitor_loop` iteration:
`if not psutil.pid_exists(parent_pid): os._exit(0)` with
`except psutil.ZombieProcess / NoSuchProcess / AccessDenied: os._exit(0)` and
`except Exception: os._exit(1)`. -/
def monitorIteration (c : PidCheck) : IterResult :=
  match c with
  | .returns alive => if alive then .continueLoop else .exitWith 0
  | .raises e =>
    match e with
    | .zombieProcess => .exitWith 0
    | .noSuchProcess => .exitWith 0
    | .accessDenied => .exitWith 0
    | _ => .exitWith 1

/-- The `while not threading_stop_event.is_set():` loop of `monitor_loop`.
`checks i` is the behaviour of the pid check in iteration `i`; `stopBefore i`
is the value `threading_stop_event.is_set()` reads at the top of iteration
`i`; `stopWait i` is the value `threading_stop_event.wait(timeout=...)`
returns at the bottom of iteration `i`.  The result is the list of iteration
indices in which a pid check was performed, and `some code` when the loop
called `os._exit(code)` (`none` when it returned or ran out of fuel). -/
def monitorLoopAux (checks : Nat → PidCheck) (stopBefore stopWait : Nat → Bool) :
    Nat → Nat → List Nat × Option Nat
  | 0, _ => ([], none)
  | fuel + 1, i =>
    if stopBefore i then ([], none)
    else
      match monitorIteration (checks i) with
      | .exitWith c => ([i], some c)
      | .continueLoop =>
        if stopWait i then ([i], none)
        else
          let r := monitorLoopAux checks stopBefore stopWait fuel (i + 1)
          (i :: r.1, r.2)

/-- `monitor_loop(parent_pid, check_interval)`.  The interval is `some q` for
a Python `int` or `float` of value `q`, `none` for a non-numeric argument:
```
if not isinstance(check_interval, (int, float)) or check_interval <= 0:
    raise ValueError(...)
```
The `ValueError` is raised before the loop (and hence before any pid check). -/
def monitor_loop (checkInterval : Option ℚ) (checks : Nat → PidCheck)
    (stopBefore stopWait : Nat → Bool) (fuel : Nat) :
    Except PyExc (List Nat × Option Nat) :=
  match checkInterval with
  | none => .error .valueError
  | some q =>
    if q ≤ 0 then .error .valueError
    else .ok (monitorLoopAux checks stopBefore stopWait fuel 0)

/-- Program counter of one thread executing the gate fragment of
`handle_termination_signal` at Python statement granularity:
read `termination_signal_handled`; if it was true, return; otherwise write
`True` into it; then run `terminate_process_tree`. -/
inductive GatePc
  | readGate
  | writeGate
  | runAction
  | finished
deriving DecidableEq, Repr

/-- Shared state of two concurrent invocations of the gate fragment:
the gate flag, the number of times the tree-termination action has run, and
each thread's program counter. -/
structure ConcState where
  gate : Bool
  actionCount : Nat
  pcA : GatePc
  pcB : GatePc
deriving DecidableEq, Repr

/-- One atomic step of a single thread in the gate fragment.  The read of the
gate and the write to the gate are separate steps, exactly as in the source
(`if termination_signal_handled: return` then `termination_signal_handled = True`). -/
def gateStep (gate : Bool) (count : Nat) : GatePc → Bool × Nat × GatePc
  | .readGate => if gate then (gate, count, .finished) else (gate, count, .writeGate)
  | .writeGate => (true, count, .runAction)
  | .runAction => (gate, count + 1, .finished)
  | .finished => (gate, count, .finished)

/-- Interleaving step: `stepB = false` steps thread A, `stepB = true` steps
thread B. -/
def concStep (s : ConcState) (stepB : Bool) : ConcState :=
  if stepB then
    let r := gateStep s.gate s.actionCount s.pcB
    { s with gate := r.1, actionCount := r.2.1, pcB := r.2.2 }
  else
    let r := gateStep s.gate s.actionCount s.pcA
    { s with gate := r.1, actionCount := r.2.1, pcA := r.2.2 }

/-- Run a schedule (a list of thread choices) from a state. -/
def runSchedule (sched : List Bool) (s : ConcState) : ConcState :=
  sched.foldl concStep s

/-- Initial state: gate clear, no action run, both triggers about to read the
gate. -/
def concInit : ConcState :=
  { gate := false, actionCount := 0, pcA := .readGate, pcB := .readGate }

/-- Concrete batch used to exercise `terminate_processes`: child 2 exits
within the grace period, child 3 survives it. -/
def w3procs : List ChildProc :=
  [{ pid := 2, termOutcome := .ok, aliveAfterGrace := false, killOutcome := .ok },
   { pid := 3, termOutcome := .ok, aliveAfterGrace := true, killOutcome := .ok }]

/-- Concrete root process (pid 1, running, exits on graceful terminate). -/
def w4root : RootProc :=
  { pid := 1, isRunning := true, termOutcome := .ok, waitOutcome := .exited, killOutcome := .ok }

/-- Concrete tree: root pid 1 with children pids 2 and 3. -/
def w4env : TreeEnv :=
  { lookupExc := none, childrenExc := none, root := w4root, children := w3procs }

/-- Tree environment in which `psutil.Process(pid)` raises an unexpected
exception. -/
def w5env : TreeEnv :=
  { lookupExc := some .otherError, childrenExc := none, root := w4root, children := [] }

/-- Tree whose first child raises `AccessDenied` on `terminate()`; the second
child and the root are healthy. -/
def c6Env : TreeEnv :=
  { lookupExc := none, childrenExc := none,
    root := { pid := 1, isRunning := true, termOutcome := .ok, waitOutcome := .exited,
              killOutcome := .ok },
    children :=
      [{ pid := 2, termOutcome := .accessDenied, aliveAfterGrace := false, killOutcome := .ok },
       { pid := 3, termOutcome := .ok, aliveAfterGrace := false, killOutcome := .ok }] }

/-- A pid check that always reports the parent alive. -/
def wChecks : Nat → PidCheck := fun _ => PidCheck.returns true

/-- A stop-event reading that is always false (event never set). -/
def wFalse : Nat → Bool := fun _ => false

/-- Initial module state: gate clear, stop event clear. -/
def w10s : ModState := { terminationSignalHandled := false, threadingStopEvent := false }

/-! ## Helper lemmas -/

/-- When no member's `terminate()` raises anything but `NoSuchProcess`, the
first loop of `terminate_processes` sends a terminate attempt to every member
in order and propagates no exception. -/
theorem terminateLoop_eq_of_no_abort (procs : List ChildProc)
    (h : ∀ p ∈ procs, p.termOutcome = .ok ∨ p.termOutcome = .noSuchProcess) :
    terminateLoop procs = (procs.map (fun p => Event.termAttempt p.pid), none) := by
  induction procs with
  | nil => rfl
  | cons p rest ih =>
    have hrest : ∀ q ∈ rest, q.termOutcome = .ok ∨ q.termOutcome = .noSuchProcess :=
      fun q hq => h q (List.mem_cons_of_mem p hq)
    rcases h p (List.mem_cons_self p rest) with hp | hp <;>
      simp [terminateLoop, hp, ih hrest]

/-- Same for the kill loop. -/
theorem killLoop_eq_of_no_abort (procs : List ChildProc)
    (h : ∀ p ∈ procs, p.killOutcome = .ok ∨ p.killOutcome = .noSuchProcess) :
    killLoop procs = (procs.map (fun p => Event.killAttempt p.pid), none) := by
  induction procs with
  | nil => rfl
  | cons p rest ih =>
    have hrest : ∀ q ∈ rest, q.killOutcome = .ok ∨ q.killOutcome = .noSuchProcess :=
      fun q hq => h q (List.mem_cons_of_mem p hq)
    rcases h p (List.mem_cons_self p rest) with hp | hp <;>
      simp [killLoop, hp, ih hrest]

/-- When the members before `p` are healthy (or already exited) and `p` raises
`AccessDenied` on `terminate()`, the first loop aborts at `p`: the members
after `p` are never signalled and the exception propagates. -/
theorem terminateLoop_eq_of_denied (pre post : List ChildProc) (p : ChildProc)
    (hpre : ∀ q ∈ pre, q.termOutcome = .ok ∨ q.termOutcome = .noSuchProcess)
    (hp : p.termOutcome = .accessDenied) :
    terminateLoop (pre ++ p :: post) =
      (pre.map (fun q => Event.termAttempt q.pid) ++ [Event.termAttempt p.pid],
       some PyExc.accessDenied) := by
  induction pre with
  | nil => simp [terminateLoop, hp]
  | cons q rest ih =>
    have hrest : ∀ r ∈ rest, r.termOutcome = .ok ∨ r.termOutcome = .noSuchProcess :=
      fun r hr => hpre r (List.mem_cons_of_mem q hr)
    rcases hpre q (List.mem_cons_self q rest) with hq | hq <;>
      simp [terminateLoop, hq, ih hrest]

/-- If the stop event is set on entry, `handle_termination_signal` leaves it
set. -/
theorem handle_stop_set (sig : Option Nat) (env : TreeEnv) (s : ModState)
    (h : s.threadingStopEvent = true) :
    (handle_termination_signal sig env s).1.threadingStopEvent = true := by
  unfold handle_termination_signal
  by_cases hg : s.terminationSignalHandled <;> simp [hg, h]

/-- Every invocation of `handle_termination_signal` records its entry event
(the function is called, whether or not the gate is already set). -/
theorem handle_invoked_mem (sig : Option Nat) (env : TreeEnv) (s : ModState) :
    Event.handleInvoked sig ∈ (handle_termination_signal sig env s).2 := by
  unfold handle_termination_signal
  by_cases hg : s.terminationSignalHandled <;> simp [hg]

/-! ## Claim theorems -/

/-- Claim C1: sequential idempotence of the termination gate.  After any run
of `handle_termination_signal` the gate is set, and every subsequent
invocation returns immediately with an unchanged state and performs nothing
beyond its entry (in particular `terminate_process_tree` is never called a
second time). -/
theorem C1_gate_idempotent (sig : Option Nat) (env : TreeEnv) (s : ModState) :
    (handle_termination_signal sig env s).1.terminationSignalHandled = true ∧
    ∀ sig2 : Option Nat, ∀ env2 : TreeEnv,
      handle_termination_signal sig2 env2 (handle_termination_signal sig env s).1 =
        ((handle_termination_signal sig env s).1, [Event.handleInvoked sig2]) ∧
      ∀ p : Nat, Event.treeCall p ∉
        (handle_termination_signal sig2 env2 (handle_termination_signal sig env s).1).2 := by
  have h1 : (handle_termination_signal sig env s).1.terminationSignalHandled = true := by
    unfold handle_termination_signal
    by_cases h : s.terminationSignalHandled <;> simp [h]
  refine ⟨h1, fun sig2 env2 => ?_⟩
  have hgen : ∀ t : ModState, t.terminationSignalHandled = true →
      handle_termination_signal sig2 env2 t = (t, [Event.handleInvoked sig2]) := by
    intro t ht
    unfold handle_termination_signal
    simp [ht]
  have h2 := hgen (handle_termination_signal sig env s).1 h1
  refine ⟨h2, fun p => ?_⟩
  rw [h2]
  simp

/-- Claim C2 (refuting the stated guarantee): the gate in the source is a
plain boolean read-then-write, so the interleaving in which both concurrent
triggers read the gate before either writes it executes the tree-termination
action twice; a sequential schedule executes it exactly once. -/
theorem C2_plain_gate_races :
    (runSchedule [false, true, false, false, true, true] concInit).actionCount = 2 ∧
    (runSchedule [false, false, false, true] concInit).actionCount = 1 := by decide

/-- Claim C3: two-phase batch termination.  When no member's signalling call
raises anything beyond `NoSuchProcess`, `terminate_processes` sends a graceful
terminate to every member (already-exited members included, without error),
then waits up to the 3-second grace period, then sends a kill to exactly the
members still alive after the wait — so every terminate precedes every kill. -/
theorem C3_two_phase (procs : List ChildProc)
    (hterm : ∀ p ∈ procs, p.termOutcome = .ok ∨ p.termOutcome = .noSuchProcess)
    (hkill : ∀ p ∈ aliveAfterWait procs,
      p.killOutcome = .ok ∨ p.killOutcome = .noSuchProcess) :
    terminate_processes procs =
      (procs.map (fun p => Event.termAttempt p.pid) ++
         Event.waitProcs 3 ::
           (aliveAfterWait procs).map (fun p => Event.killAttempt p.pid),
       none) := by
  unfold terminate_processes
  rw [terminateLoop_eq_of_no_abort procs hterm,
    killLoop_eq_of_no_abort (aliveAfterWait procs) hkill]

/-- Witness for C3 at a concrete batch: pid 2 exits within the grace period,
pid 3 does not and receives the kill. -/
theorem C3_witness :
    terminate_processes w3procs =
      ([Event.termAttempt 2, Event.termAttempt 3, Event.waitProcs 3, Event.killAttempt 3],
       none) := by
  simpa [w3procs, aliveAfterWait] using C3_two_phase w3procs (by decide) (by decide)

/-- Claim C4: descendants before root.  When lookup and enumeration succeed
and neither phase propagates an exception, the trace of
`terminate_process_tree` is the batch termination of the children followed by
the termination of the root — the root is terminated last. -/
theorem C4_children_before_root (env : TreeEnv)
    (h1 : env.lookupExc = none) (h2 : env.childrenExc = none)
    (h3 : (terminate_processes env.children).2 = none)
    (h4 : (terminate_process env.root).2 = none) :
    terminate_process_tree env =
      ((terminate_processes env.children).1 ++ (terminate_process env.root).1, none) := by
  simp [terminate_process_tree, terminateTreeBody, h1, h2, h3, h4]

/-- Witness for C4: a tree with root pid 1 and children pids 2 and 3. -/
theorem C4_witness :
    terminate_process_tree w4env =
      ((terminate_processes w4env.children).1 ++ (terminate_process w4env.root).1, none) :=
  C4_children_before_root w4env rfl rfl (by decide) (by decide)

/-- Claim C5: the terminator never propagates an error.  For every
environment, `terminate_process_tree` returns normally; a `NoSuchProcess`
escaping the body is silently accepted (no log event is appended), and any
other escaping exception is logged and suppressed. -/
theorem C5_never_propagates (env : TreeEnv) :
    (terminate_process_tree env).2 = none ∧
    ((terminateTreeBody env).2 = some PyExc.noSuchProcess →
      (terminate_process_tree env).1 = (terminateTreeBody env).1) ∧
    (∀ e : PyExc, (terminateTreeBody env).2 = some e → e ≠ PyExc.noSuchProcess →
      (terminate_process_tree env).1 = (terminateTreeBody env).1 ++ [Event.logTreeError]) := by
  rcases h : (terminateTreeBody env).2 with _ | e
  · refine ⟨?_, ?_, ?_⟩ <;> simp [terminate_process_tree, h]
  · cases e <;> refine ⟨?_, ?_, ?_⟩ <;> simp [terminate_process_tree, h]

/-- Witness for C5 at an environment whose process lookup raises an
unexpected exception: the call still returns normally and the failure is
logged. -/
theorem C5_witness :
    (terminate_process_tree w5env).2 = none ∧
    (terminate_process_tree w5env).1 = (terminateTreeBody w5env).1 ++ [Event.logTreeError] :=
  ⟨(C5_never_propagates w5env).1,
   (C5_never_propagates w5env).2.2 PyExc.otherError rfl (by decide)⟩

/-- Claim C6, counterexample: in `c6Env` the first child raises
`AccessDenied` on its graceful terminate.  The terminator does not skip it:
the second child (pid 3) never receives a terminate or kill, the root (pid 1)
never receives a termination call, and the only extra event is the error log
of `terminate_process_tree`. -/
theorem C6_counterexample :
    (terminate_process_tree c6Env).1 = [Event.termAttempt 2, Event.logTreeError] ∧
    Event.termAttempt 3 ∉ (terminate_process_tree c6Env).1 ∧
    Event.killAttempt 3 ∉ (terminate_process_tree c6Env).1 ∧
    Event.termAttempt 1 ∉ (terminate_process_tree c6Env).1 := by decide

/-- Claim C6 as amended: a permission-denied failure while signalling one
member aborts the batch at that member — the members after it and the root
receive no termination calls, no kill is issued, and `terminate_process_tree`
logs the failure and returns normally (nothing propagates to the caller). -/
theorem C6_denied_aborts_batch (env : TreeEnv) (pre post : List ChildProc) (p : ChildProc)
    (h1 : env.lookupExc = none) (h2 : env.childrenExc = none)
    (h3 : env.children = pre ++ p :: post)
    (h4 : ∀ q ∈ pre, q.termOutcome = .ok ∨ q.termOutcome = .noSuchProcess)
    (h5 : p.termOutcome = .accessDenied) :
    terminate_process_tree env =
      (pre.map (fun q => Event.termAttempt q.pid) ++
         [Event.termAttempt p.pid, Event.logTreeError], none) := by
  have hloop := terminateLoop_eq_of_denied pre post p h4 h5
  simp [terminate_process_tree, terminateTreeBody, terminate_processes, h1, h2, h3, hloop]

/-- Witness for the amended C6 at the concrete tree `c6Env`. -/
theorem C6_witness :
    terminate_process_tree c6Env = ([Event.termAttempt 2, Event.logTreeError], none) := by
  simpa using C6_denied_aborts_batch c6Env []
    [{ pid := 3, termOutcome := .ok, aliveAfterGrace := false, killOutcome := .ok }]
    { pid := 2, termOutcome := .accessDenied, aliveAfterGrace := false, killOutcome := .ok }
    rfl rfl rfl (by decide) rfl

/-- Claim C7: monitor exit codes.  One iteration of `monitor_loop` exits with
status 0 when the parent is reported not found, or the check raises
`ZombieProcess`, `NoSuchProcess` or `AccessDenied`; exits with status 1 when
the check raises any other exception; and continues the loop when the parent
is alive. -/
theorem C7_monitor_exit_codes (c : PidCheck) :
    (c = .returns false ∨ c = .raises .zombieProcess ∨ c = .raises .noSuchProcess ∨
        c = .raises .accessDenied →
      monitorIteration c = .exitWith 0) ∧
    (∀ e : PyExc, c = .raises e → e ≠ .zombieProcess → e ≠ .noSuchProcess →
        e ≠ .accessDenied → monitorIteration c = .exitWith 1) ∧
    (c = .returns true → monitorIteration c = .continueLoop) := by
  refine ⟨?_, ?_, ?_⟩
  · rintro (rfl | rfl | rfl | rfl) <;> rfl
  · rintro e rfl h1 h2 h3
    cases e with
    | noSuchProcess => exact absurd rfl h2
    | accessDenied => exact absurd rfl h3
    | timeoutExpired => rfl
    | zombieProcess => exact absurd rfl h1
    | valueError => rfl
    | otherError => rfl
  · rintro rfl; rfl

/-- Witness for C7: parent not found exits 0, an unexpected exception exits 1,
parent alive continues. -/
theorem C7_witness :
    monitorIteration (.returns false) = .exitWith 0 ∧
    monitorIteration (.raises .otherError) = .exitWith 1 ∧
    monitorIteration (.returns true) = .continueLoop :=
  ⟨(C7_monitor_exit_codes (.returns false)).1 (Or.inl rfl),
   (C7_monitor_exit_codes (.raises .otherError)).2.1 .otherError rfl (by decide) (by decide)
     (by decide),
   (C7_monitor_exit_codes (.returns true)).2.2 rfl⟩

/-- Claim C8: check-interval validation.  A non-numeric interval or a
non-positive numeric interval makes `monitor_loop` raise `ValueError` before
any parent check runs (the error result carries no check trace); every
positive numeric interval raises nothing and the loop is entered. -/
theorem C8_interval_validation (checks : Nat → PidCheck) (stopBefore stopWait : Nat → Bool)
    (fuel : Nat) :
    monitor_loop none checks stopBefore stopWait fuel = .error .valueError ∧
    (∀ q : ℚ, q ≤ 0 →
      monitor_loop (some q) checks stopBefore stopWait fuel = .error .valueError) ∧
    (∀ q : ℚ, 0 < q →
      monitor_loop (some q) checks stopBefore stopWait fuel =
        .ok (monitorLoopAux checks stopBefore stopWait fuel 0)) := by
  refine ⟨rfl, fun q hq => ?_, fun q hq => ?_⟩
  · simp [monitor_loop, hq]
  · simp [monitor_loop, hq.not_le]

/-- Witness for C8 at intervals 0, -1 and 1. -/
theorem C8_witness :
    monitor_loop (some 0) wChecks wFalse wFalse 5 = .error .valueError ∧
    monitor_loop (some (-1)) wChecks wFalse wFalse 5 = .error .valueError ∧
    monitor_loop (some 1) wChecks wFalse wFalse 5 =
      .ok (monitorLoopAux wChecks wFalse wFalse 5 0) :=
  ⟨(C8_interval_validation wChecks wFalse wFalse 5).2.1 0 le_rfl,
   (C8_interval_validation wChecks wFalse wFalse 5).2.1 (-1) (by norm_num),
   (C8_interval_validation wChecks wFalse wFalse 5).2.2 1 (by norm_num)⟩

/-- Claim C9: shutdown sequencer order.  `shutdown_event_loop` first sets the
cooperative stop event, then cancels exactly the tasks other than the one
running the sequencer, then awaits them all collecting their outcomes, and
finally invokes the termination gate unconditionally with the signal
identity; the resulting state has the stop event set. -/
theorem C9_shutdown_sequence (sig : Option Nat) (tasks : List ATask) (current : Nat)
    (env : TreeEnv) (s : ModState) :
    (shutdown_event_loop sig tasks current env s).2 =
      Event.setStopEvent ::
        (tasks.filter (fun t => t.tid ≠ current)).map (fun t => Event.cancelTask t.tid) ++
        Event.gatherDone ((tasks.filter (fun t => t.tid ≠ current)).map (fun t => t.outcome)) ::
        (handle_termination_signal sig env { s with threadingStopEvent := true }).2 ∧
    (shutdown_event_loop sig tasks current env s).1.threadingStopEvent = true ∧
    Event.handleInvoked sig ∈ (shutdown_event_loop sig tasks current env s).2 := by
  refine ⟨rfl, handle_stop_set sig env { s with threadingStopEvent := true } rfl, ?_⟩
  have htr : (shutdown_event_loop sig tasks current env s).2 =
      Event.setStopEvent ::
        (tasks.filter (fun t => t.tid ≠ current)).map (fun t => Event.cancelTask t.tid) ++
        Event.gatherDone ((tasks.filter (fun t => t.tid ≠ current)).map (fun t => t.outcome)) ::
        (handle_termination_signal sig env { s with threadingStopEvent := true }).2 := rfl
  rw [htr]
  have hmem := handle_invoked_mem sig env { s with threadingStopEvent := true }
  simp [hmem]

/-- Claim C10: monotonicity of the shared flags.  Neither
`handle_termination_signal` nor `shutdown_event_loop` ever resets a set flag,
and on the direct synchronous path (gate not yet set)
`handle_termination_signal` sets the shutdown signal before invoking
`terminate_process_tree`, so the monitor loop is released on every trigger
path. -/
theorem C10_flags_monotone (sig : Option Nat) (env : TreeEnv) (s : ModState)
    (tasks : List ATask) (current : Nat) :
    ((s.terminationSignalHandled = true →
        (handle_termination_signal sig env s).1.terminationSignalHandled = true) ∧
      (s.threadingStopEvent = true →
        (handle_termination_signal sig env s).1.threadingStopEvent = true)) ∧
    ((s.terminationSignalHandled = true →
        (shutdown_event_loop sig tasks current env s).1.terminationSignalHandled = true) ∧
      (s.threadingStopEvent = true →
        (shutdown_event_loop sig tasks current env s).1.threadingStopEvent = true)) ∧
    (s.terminationSignalHandled = false →
      (handle_termination_signal sig env s).2 =
        Event.handleInvoked sig :: Event.setStopEvent :: Event.treeCall env.root.pid ::
          (terminate_process_tree env).1 ∧
      (handle_termination_signal sig env s).1.threadingStopEvent = true) := by
  refine ⟨⟨fun hg => ?_, fun hs => ?_⟩, ⟨fun hg => ?_, fun hs => ?_⟩, fun hg => ?_⟩
  · unfold handle_termination_signal
    simp [hg]
  · unfold handle_termination_signal
    by_cases hg : s.terminationSignalHandled <;> simp [hg, hs]
  · unfold shutdown_event_loop handle_termination_signal
    simp [hg]
  · unfold shutdown_event_loop handle_termination_signal
    by_cases hgate : s.terminationSignalHandled <;> simp [hgate]
  · unfold handle_termination_signal
    simp [hg]

/-- Witness for C10 on the direct path from the clear initial state. -/
theorem C10_witness :
    (handle_termination_signal none w4env w10s).2 =
      Event.handleInvoked none :: Event.setStopEvent :: Event.treeCall w4env.root.pid ::
        (terminate_process_tree w4env).1 ∧
    (handle_termination_signal none w4env w10s).1.threadingStopEvent = true :=
  (C10_flags_monotone none w4env w10s [] 0).2.2 rfl

end GpuProc
